import Mathlib

/-!
Shallow embedding of the scoring and gap-analysis engine of the
ki-governance-prototype repository (src/backend/scoring.py and
src/backend/analysis.py), together with theorems settling the claims
about it.

Modelling conventions:
* Python floats are modelled as exact rationals (ℚ); `round(x, 2)` is
  modelled as rounding `x * 100` to the nearest integer with ties to even
  (Python's documented round-half-to-even), divided by 100.
* Python `Optional[T]` is `Option T`; Python dicts with unique keys are
  association lists queried with `List.lookup`.
* `list.sort` (Timsort, stable) is modelled by the stable `List.mergeSort`.
* In-place mutation of a Pydantic model (`calculate_dim_score` mutates and
  returns its argument) is modelled as returning an updated copy of the
  record.
-/

namespace KIGov

/-- Model of `CriterionScore` (src/backend/models.py): one rated item
within a dimension. -/
structure CriterionScore where
  criterion_id : String
  score : Option Int
  is_na : Bool
deriving DecidableEq

/-- Model of `DimensionResult` (src/backend/models.py): aggregate over one
governance dimension. -/
structure DimensionResult where
  dimension_id : String
  dimension_name : String
  criteria_scores : List CriterionScore
  dim_score : Option ℚ
  num_rated : Nat
  num_na : Nat
deriving DecidableEq

/-- Model of `GapItem` (src/backend/models.py): one identified governance
weakness. -/
structure GapItem where
  dimension_id : String
  dimension_name : String
  dim_score : ℚ
  gap_severity : String
  priority_rank : Nat
  recommendation : String
deriving DecidableEq

/-- Round a rational to the nearest integer, ties to even (the rounding
of Python 3's builtin `round` on exact values). -/
def roundHalfEven (q : ℚ) : ℤ :=
  if Int.fract q < 1/2 then ⌊q⌋
  else if 1/2 < Int.fract q then ⌊q⌋ + 1
  else if ⌊q⌋ % 2 = 0 then ⌊q⌋ else ⌊q⌋ + 1

/-- Model of Python `round(q, 2)`: round to 2 decimal places. -/
def round2 (q : ℚ) : ℚ := (roundHalfEven (q * 100) : ℚ) / 100

/-- The predicate selecting the `rated` subset in `calculate_dim_score`
(src/backend/scoring.py line 18): not N/A and score present. -/
def isRated (cs : CriterionScore) : Bool := !cs.is_na && cs.score.isSome

/-- Model of `calculate_dim_score` (src/backend/scoring.py lines 11-25).
Computes the arithmetic mean of all rated (non-N/A) criteria scores
within a dimension and fills the three derived fields. -/
def calculate_dim_score (dimension : DimensionResult) : DimensionResult :=
  let rated := dimension.criteria_scores.filter isRated
  let na_count := (dimension.criteria_scores.filter (fun cs => cs.is_na)).length
  { dimension with
    num_rated := rated.length
    num_na := na_count
    dim_score :=
      if rated.isEmpty then none
      else some (round2 ((rated.map (fun cs => ((cs.score.getD 0 : Int) : ℚ))).sum
                          / (rated.length : ℚ))) }

/-- Weight lookup of `calculate_overall_score`
(src/backend/scoring.py lines 46 and 51): `weights.get(d.dimension_id, 1/6)`. -/
def weightOf (weights : List (String × ℚ)) (id : String) : ℚ :=
  (weights.lookup id).getD (1/6)

/-- Model of `calculate_overall_score` (src/backend/scoring.py lines 28-54):
weighted overall score across all dimensions, default equal weights. -/
def calculate_overall_score (dimensions : List DimensionResult)
    (weights : Option (List (String × ℚ))) : ℚ :=
  let scored_dims := dimensions.filter (fun d => d.dim_score.isSome)
  if scored_dims.isEmpty then 0
  else
    match weights with
    | none =>
        round2 ((scored_dims.map (fun d => d.dim_score.getD 0)).sum
                  / (scored_dims.length : ℚ))
    | some w =>
        let total_weight := (scored_dims.map (fun d => weightOf w d.dimension_id)).sum
        if total_weight = 0 then 0
        else
          let weighted_sum :=
            (scored_dims.map (fun d => weightOf w d.dimension_id * d.dim_score.getD 0)).sum
          round2 (weighted_sum / total_weight)

/-- Model of `MATURITY_LEVELS` (src/backend/scoring.py lines 58-64). -/
def MATURITY_LEVELS : List (ℚ × String) :=
  [((4.5 : ℚ), "Optimizing"),
   ((3.5 : ℚ), "Measured"),
   ((2.5 : ℚ), "Defined"),
   ((1.5 : ℚ), "Managed"),
   ((0 : ℚ), "Initial")]

/-- Model of `get_maturity_label` (src/backend/scoring.py lines 67-72):
first entry of the ladder whose threshold the score reaches, default
"Initial". -/
def get_maturity_label (score : ℚ) : String :=
  ((MATURITY_LEVELS.find? (fun tl => decide (tl.1 ≤ score))).map (fun tl => tl.2)).getD
    "Initial"

/-- Model of `RECOMMENDATIONS` (src/backend/analysis.py lines 26-57):
context-specific recommendations per dimension and severity,
`dimension_id -> severity -> recommendation`. -/
def RECOMMENDATIONS : List (String × List (String × String)) :=
  [("D1",
    [("critical", "Sofortmaßnahme: Etablieren Sie mindestens ein rudimentäres KI-Risikoregister und bestimmen Sie eine*n Risikoverantwortliche*n. Ohne jegliches Risikomanagement besteht akute Nicht-Konformität mit Art. 9 EU AI Act — dies kann Bußgelder bis 3% des weltweiten Umsatzes nach sich ziehen."),
     ("significant", "Formalisieren Sie das bestehende Risikomanagement: Definieren Sie Risikoklassen, Bewertungskriterien und Review-Zyklen. Implementieren Sie ein lebenszyklus-begleitendes Monitoring mit klaren Eskalationspfaden. Quick Win: Risikoregister-Template aus ISO 31000 adaptieren."),
     ("moderate", "Optimieren Sie die Verzahnung des KI-Risikomanagements mit dem Enterprise Risk Management. Etablieren Sie quantitative Risikometriken und automatisierte Schwellenwert-Überwachung. Benchmarking gegen Branchenstandards empfohlen.")]),
   ("D2",
    [("critical", "Sofortmaßnahme: Dokumentieren Sie alle Trainingsdatenquellen und führen Sie eine initiale Bias-Prüfung durch. Ohne Data Governance ist die Konformität mit Art. 10 nicht nachweisbar. Quick Win: Daten-Inventar erstellen."),
     ("significant", "Implementieren Sie systematische Datenqualitätsprozesse: Definieren Sie Metriken für Vollständigkeit, Aktualität und Repräsentativität. Etablieren Sie Bias-Detection-Pipelines und Datenherkunftsdokumentation (Data Lineage)."),
     ("moderate", "Erweitern Sie die Data Governance um kontinuierliches Datenqualitäts-Monitoring und automatisierte Drift-Erkennung. Etablieren Sie Fairness-KPIs und regelmäßige Audits der Trainingsdaten.")]),
   ("D3",
    [("critical", "Sofortmaßnahme: Erstellen Sie die technische Dokumentation gemäß Art. 11 / Anhang IV EU AI Act. Ohne Dokumentation ist keine Konformitätserklärung möglich. Quick Win: Dokumentationstemplate nach Anhang IV nutzen."),
     ("significant", "Vervollständigen Sie die technische Dokumentation und etablieren Sie automatisierte Logging-Systeme. Implementieren Sie eine Versionierungsstrategie für Modelle, Daten und Konfigurationen."),
     ("moderate", "Automatisieren Sie die Dokumentationspflege durch CI/CD-Integration. Etablieren Sie Machine-Readable-Logs und implementieren Sie Audit-Trails für alle Modellentscheidungen.")]),
   ("D4",
    [("critical", "Sofortmaßnahme: Implementieren Sie die Mindest-Informationspflichten nach Art. 13 — Nutzer*innen müssen wissen, dass sie mit KI interagieren. Quick Win: KI-Kennzeichnung und Basis-Nutzungsinformation bereitstellen."),
     ("significant", "Stärken Sie die Erklärbarkeit durch XAI-Methoden (SHAP, LIME) und etablieren Sie klare Kommunikationswege für Transparenzanfragen. Dokumentieren Sie Systemgrenzen und Unsicherheitsbereiche."),
     ("moderate", "Implementieren Sie zielgruppenspezifische Erklärbarkeit (technisch für Auditoren, verständlich für Endnutzer). Etablieren Sie proaktive Transparenzberichte und Stakeholder-Kommunikation.")]),
   ("D5",
    [("critical", "Sofortmaßnahme: Definieren Sie mindestens eine*n geschulte*n Aufsichtsperson mit Interventionsbefugnis (Art. 14). Ohne menschliche Aufsicht ist der Betrieb von Hochrisiko-KI nicht zulässig. Quick Win: Notfall-Stopp-Mechanismus implementieren."),
     ("significant", "Etablieren Sie ein strukturiertes Human Oversight Framework: Definieren Sie Aufsichtsrollen, Schulungsprogramme und Interventionsprotokolle. Implementieren Sie Maßnahmen gegen Automation Bias."),
     ("moderate", "Optimieren Sie die Mensch-KI-Interaktion: Implementieren Sie adaptive Aufsichtsintensität basierend auf Risikosituationen. Etablieren Sie regelmäßige Calibration-Sessions und Feedback-Loops.")]),
   ("D6",
    [("critical", "Sofortmaßnahme: Definieren Sie Mindest-Performance-Schwellen und implementieren Sie einen Fallback-Mechanismus für Systemausfälle (Art. 15). Quick Win: Monitoring-Dashboard für zentrale Leistungskennzahlen aufsetzen."),
     ("significant", "Erhöhen Sie die technische Robustheit: Implementieren Sie Cybersicherheitsmaßnahmen, adversarial Testing und kontinuierliches Performance-Monitoring. Definieren Sie Degradation-Strategien."),
     ("moderate", "Etablieren Sie ein umfassendes Resilience-Framework: Chaos Engineering für KI-Systeme, automatisierte Regressionstests, und Monitoring von Data/Concept Drift mit automatischer Benachrichtigung.")])]

/-- Model of `RISK_THRESHOLDS` (src/backend/analysis.py lines 60-64):
risk-category-based gap thresholds. -/
def RISK_THRESHOLDS : List (String × ℚ) :=
  [("high-risk", (3.0 : ℚ)),
   ("limited-risk", (2.5 : ℚ)),
   ("minimal-risk", (2.0 : ℚ))]

/-- Threshold resolution step of `analyze_gaps`
(src/backend/analysis.py lines 84-86): `if risk_category and risk_category
in RISK_THRESHOLDS: threshold = RISK_THRESHOLDS[risk_category]`. The
emptiness test models Python string truthiness. -/
def resolve_threshold (threshold : ℚ) (risk_category : Option String) : ℚ :=
  match risk_category with
  | none => threshold
  | some rc =>
      if rc = "" then threshold
      else
        match RISK_THRESHOLDS.lookup rc with
        | some t => t
        | none => threshold

/-- Severity classification of `analyze_gaps`
(src/backend/analysis.py lines 93-98), first match wins. -/
def severity_of (gap_value : ℚ) : String :=
  if gap_value ≥ 2 then "critical"
  else if gap_value ≥ 1 then "significant"
  else "moderate"

/-- Recommendation lookup of `analyze_gaps`
(src/backend/analysis.py lines 100-102): `dim_recs.get(severity,
dim_recs.get("moderate", ""))` over `RECOMMENDATIONS.get(dimension_id, {})`. -/
def recommendation_for (dimension_id severity : String) : String :=
  let dim_recs := (RECOMMENDATIONS.lookup dimension_id).getD []
  (dim_recs.lookup severity).getD ((dim_recs.lookup "moderate").getD "")

/-- Loop body of `analyze_gaps` (src/backend/analysis.py lines 89-111):
the gap entry produced for one dimension, `none` when the dimension has no
score or its score reaches the threshold. `priority_rank` is set to 0 here
and assigned later, as in the source. -/
def gap_of (threshold : ℚ) (dim : DimensionResult) : Option GapItem :=
  match dim.dim_score with
  | none => none
  | some s =>
      if s < threshold then
        let gap_value := threshold - s
        let severity := severity_of gap_value
        some { dimension_id := dim.dimension_id
               dimension_name := dim.dimension_name
               dim_score := s
               gap_severity := severity
               priority_rank := 0
               recommendation := recommendation_for dim.dimension_id severity }
      else none

/-- Rank-assignment loop of `analyze_gaps`
(src/backend/analysis.py lines 115-116): `gap.priority_rank = i + 1` along
the sorted list, beginning with the given rank. -/
def assign_ranks : Nat → List GapItem → List GapItem
  | _, [] => []
  | n, g :: gs => { g with priority_rank := n } :: assign_ranks (n + 1) gs

/-- Model of `analyze_gaps` (src/backend/analysis.py lines 67-118):
threshold resolution, per-dimension gap detection, stable sort by score
ascending, priority-rank assignment. -/
def analyze_gaps (dimensions : List DimensionResult) (threshold : ℚ)
    (risk_category : Option String) : List GapItem :=
  let t := resolve_threshold threshold risk_category
  let gaps := dimensions.filterMap (gap_of t)
  let sorted := gaps.mergeSort (fun a b => decide (a.dim_score ≤ b.dim_score))
  assign_ranks 1 sorted

/-- Concrete scenario dimension from the spec: ratings
`[1, None(is_na=true), 2, None, 3]`. -/
def exD2 : DimensionResult :=
  { dimension_id := "D2", dimension_name := "Data Governance"
    criteria_scores :=
      [⟨"D2.1", some 1, false⟩, ⟨"D2.2", none, true⟩, ⟨"D2.3", some 2, false⟩,
       ⟨"D2.4", none, true⟩, ⟨"D2.5", some 3, false⟩]
    dim_score := none, num_rated := 0, num_na := 0 }

/-- A dimension with a precomputed score, for gap-analysis scenarios. -/
def mkDim (id : String) (s : Option ℚ) : DimensionResult :=
  { dimension_id := id, dimension_name := id, criteria_scores := []
    dim_score := s, num_rated := 0, num_na := 0 }

/-- Replace the score of the criterion at index `i` (leaving the list
unchanged when `i` is out of range), used to state N/A noninterference. -/
def set_score (l : List CriterionScore) (i : Nat) (v : Option Int) :
    List CriterionScore :=
  match l[i]? with
  | none => l
  | some cs => l.set i { cs with score := v }

/-- The gap item produced for an unknown dimension "DX" scoring 1 under
the default threshold 3. -/
def gDX : GapItem :=
  { dimension_id := "DX", dimension_name := "DX", dim_score := 1
    gap_severity := "critical", priority_rank := 1, recommendation := "" }

/-- The gap item produced for the unknown dimension "DX" scoring 1 under
the minimal-risk threshold 2. -/
def gDXmin : GapItem :=
  { dimension_id := "DX", dimension_name := "DX", dim_score := 1
    gap_severity := "significant", priority_rank := 1, recommendation := "" }

/-- The unranked gap item of a dimension scoring 2 under threshold 3, for
the stable-tie scenario. -/
def gTie (id : String) : GapItem :=
  { dimension_id := id, dimension_name := id, dim_score := 2
    gap_severity := "significant", priority_rank := 0
    recommendation := recommendation_for id "significant" }

/-- Gap-item equality up to `priority_rank`. -/
def sameGap (g g0 : GapItem) : Prop :=
  g.dimension_id = g0.dimension_id ∧ g.dimension_name = g0.dimension_name ∧
    g.dim_score = g0.dim_score ∧ g.gap_severity = g0.gap_severity ∧
    g.recommendation = g0.recommendation

theorem sameGap_of_update (g0 : GapItem) (k : Nat) :
    sameGap { g0 with priority_rank := k } g0 :=
  ⟨rfl, rfl, rfl, rfl, rfl⟩

theorem sameGap_refl (g : GapItem) : sameGap g g := ⟨rfl, rfl, rfl, rfl, rfl⟩

theorem sameGap_trans {a b c : GapItem} (h1 : sameGap a b) (h2 : sameGap b c) :
    sameGap a c := by
  obtain ⟨e1, e2, e3, e4, e5⟩ := h1
  obtain ⟨f1, f2, f3, f4, f5⟩ := h2
  exact ⟨e1.trans f1, e2.trans f2, e3.trans f3, e4.trans f4, e5.trans f5⟩

theorem length_assign_ranks (n : Nat) (l : List GapItem) :
    (assign_ranks n l).length = l.length := by
  induction l generalizing n with
  | nil => rfl
  | cons g gs ih => simp [assign_ranks, ih]

theorem map_rank_assign_ranks (n : Nat) (l : List GapItem) :
    (assign_ranks n l).map (fun g => g.priority_rank) = List.range' n l.length := by
  induction l generalizing n with
  | nil => rfl
  | cons g gs ih => simp [assign_ranks, ih, List.range'_succ]

theorem mem_assign_ranks {g : GapItem} {n : Nat} {l : List GapItem}
    (h : g ∈ assign_ranks n l) : ∃ g0 ∈ l, sameGap g g0 := by
  induction l generalizing n with
  | nil => simp [assign_ranks] at h
  | cons a as ih =>
      simp only [assign_ranks, List.mem_cons] at h
      rcases h with h | h
      · exact ⟨a, List.mem_cons_self a as, h ▸ sameGap_of_update a n⟩
      · obtain ⟨g0, hg0, hs⟩ := ih h
        exact ⟨g0, List.mem_cons_of_mem a hg0, hs⟩

theorem mem_assign_ranks_of_mem {g0 : GapItem} {l : List GapItem} (n : Nat)
    (h : g0 ∈ l) : ∃ g ∈ assign_ranks n l, sameGap g g0 := by
  induction l generalizing n with
  | nil => simp at h
  | cons a as ih =>
      rcases List.mem_cons.mp h with h | h
      · subst h
        exact ⟨{ g0 with priority_rank := n },
          List.mem_cons_self _ _, sameGap_of_update g0 n⟩
      · obtain ⟨g, hg, hs⟩ := ih (n + 1) h
        exact ⟨g, List.mem_cons_of_mem _ hg, hs⟩

theorem map_idscore_assign_ranks (n : Nat) (l : List GapItem) :
    (assign_ranks n l).map (fun g => (g.dimension_id, g.dim_score))
      = l.map (fun g => (g.dimension_id, g.dim_score)) := by
  induction l generalizing n with
  | nil => rfl
  | cons a as ih => simp [assign_ranks, ih]

theorem pairwise_assign_ranks {l : List GapItem} (n : Nat)
    (h : l.Pairwise (fun a b => a.dim_score ≤ b.dim_score)) :
    (assign_ranks n l).Pairwise (fun a b => a.dim_score ≤ b.dim_score) := by
  induction l generalizing n with
  | nil => exact List.Pairwise.nil
  | cons a as ih =>
      rcases List.pairwise_cons.mp h with ⟨ha, has⟩
      refine List.pairwise_cons.mpr ⟨?_, ih (n + 1) has⟩
      intro b hb
      obtain ⟨g0, hg0, hs⟩ := mem_assign_ranks hb
      have : a.dim_score ≤ g0.dim_score := ha g0 hg0
      simpa [sameGap, hs.2.2.1] using this

theorem gap_of_eq_some {t : ℚ} {d : DimensionResult} {g : GapItem}
    (h : gap_of t d = some g) :
    d.dim_score = some g.dim_score ∧ g.dim_score < t ∧
      g.dimension_id = d.dimension_id ∧ g.dimension_name = d.dimension_name ∧
      g.gap_severity = severity_of (t - g.dim_score) ∧
      g.recommendation = recommendation_for g.dimension_id g.gap_severity := by
  unfold gap_of at h
  rcases hd : d.dim_score with _ | s
  · rw [hd] at h; exact absurd h (by simp)
  · rw [hd] at h
    dsimp only at h
    by_cases hlt : s < t
    · rw [if_pos hlt] at h
      obtain rfl := Option.some.inj h
      exact ⟨rfl, hlt, rfl, rfl, rfl, rfl⟩
    · rw [if_neg hlt] at h; exact absurd h (by simp)

theorem gap_of_eq_some_intro {t : ℚ} {d : DimensionResult} {s : ℚ}
    (hd : d.dim_score = some s) (hlt : s < t) :
    gap_of t d = some
      { dimension_id := d.dimension_id
        dimension_name := d.dimension_name
        dim_score := s
        gap_severity := severity_of (t - s)
        priority_rank := 0
        recommendation := recommendation_for d.dimension_id (severity_of (t - s)) } := by
  unfold gap_of
  rw [hd]
  simp [hlt, severity_of]

theorem gap_of_isSome {t : ℚ} {d : DimensionResult} :
    (gap_of t d).isSome = d.dim_score.any (fun s => decide (s < t)) := by
  unfold gap_of
  rcases d.dim_score with _ | s
  · rfl
  · by_cases hlt : s < t <;> simp [hlt]

theorem mem_analyze_gaps {g : GapItem} {dims : List DimensionResult} {t : ℚ}
    {rc : Option String} (h : g ∈ analyze_gaps dims t rc) :
    ∃ d ∈ dims, d.dim_score = some g.dim_score ∧
      g.dim_score < resolve_threshold t rc ∧
      g.dimension_id = d.dimension_id ∧ g.dimension_name = d.dimension_name ∧
      g.gap_severity = severity_of (resolve_threshold t rc - g.dim_score) ∧
      g.recommendation = recommendation_for g.dimension_id g.gap_severity := by
  unfold analyze_gaps at h
  obtain ⟨g0, hg0, hs⟩ := mem_assign_ranks h
  rw [List.mem_mergeSort, List.mem_filterMap] at hg0
  obtain ⟨d, hd, hgap⟩ := hg0
  obtain ⟨h1, h2, h3, h4, h5, h6⟩ := gap_of_eq_some hgap
  obtain ⟨e1, e2, e3, e4, e5⟩ := hs
  refine ⟨d, hd, ?_, ?_, ?_, ?_, ?_, ?_⟩
  · rw [e3]; exact h1
  · rw [e3]; exact h2
  · rw [e1]; exact h3
  · rw [e2]; exact h4
  · rw [e4, e3]; exact h5
  · rw [e5, e4, e1]; exact h6

theorem mem_analyze_gaps_of_mem {d : DimensionResult} {dims : List DimensionResult}
    {t : ℚ} {rc : Option String} {s : ℚ} (hd : d ∈ dims) (hs : d.dim_score = some s)
    (hlt : s < resolve_threshold t rc) :
    ∃ g ∈ analyze_gaps dims t rc, g.dimension_id = d.dimension_id ∧
      g.dim_score = s := by
  unfold analyze_gaps
  have hgap := gap_of_eq_some_intro hs hlt
  have hmem : ({ dimension_id := d.dimension_id
                 dimension_name := d.dimension_name
                 dim_score := s
                 gap_severity := severity_of (resolve_threshold t rc - s)
                 priority_rank := 0
                 recommendation :=
                   recommendation_for d.dimension_id
                     (severity_of (resolve_threshold t rc - s)) } : GapItem)
      ∈ dims.filterMap (gap_of (resolve_threshold t rc)) :=
    List.mem_filterMap.mpr ⟨d, hd, hgap⟩
  have hmem2 : ({ dimension_id := d.dimension_id
                  dimension_name := d.dimension_name
                  dim_score := s
                  gap_severity := severity_of (resolve_threshold t rc - s)
                  priority_rank := 0
                  recommendation :=
                    recommendation_for d.dimension_id
                      (severity_of (resolve_threshold t rc - s)) } : GapItem)
      ∈ (dims.filterMap (gap_of (resolve_threshold t rc))).mergeSort
          (fun a b => decide (a.dim_score ≤ b.dim_score)) :=
    List.mem_mergeSort.mpr hmem
  obtain ⟨g, hg, hsame⟩ := mem_assign_ranks_of_mem 1 hmem2
  exact ⟨g, hg, hsame.1, hsame.2.2.1⟩

theorem length_analyze_gaps (dims : List DimensionResult) (t : ℚ)
    (rc : Option String) :
    (analyze_gaps dims t rc).length
      = dims.countP
          (fun d => d.dim_score.any (fun s => decide (s < resolve_threshold t rc))) := by
  unfold analyze_gaps
  rw [length_assign_ranks, List.length_mergeSort, List.length_filterMap_eq_countP]
  congr 1
  funext d
  exact gap_of_isSome

theorem analyze_gaps_eq (dims : List DimensionResult) (t : ℚ) (rc : Option String) :
    analyze_gaps dims t rc
      = assign_ranks 1
          ((dims.filterMap (gap_of (resolve_threshold t rc))).mergeSort
            (fun a b => decide (a.dim_score ≤ b.dim_score))) := rfl

theorem resolve_high (t : ℚ) : resolve_threshold t (some "high-risk") = 3 := by
  have b1 : (("high-risk" : String) == "high-risk") = true := by decide
  have e1 : ("high-risk" : String) ≠ "" := by decide
  norm_num [resolve_threshold, RISK_THRESHOLDS, List.lookup, b1, e1]

theorem resolve_minimal (t : ℚ) : resolve_threshold t (some "minimal-risk") = 2 := by
  have b1 : (("minimal-risk" : String) == "high-risk") = false := by decide
  have b2 : (("minimal-risk" : String) == "limited-risk") = false := by decide
  have b3 : (("minimal-risk" : String) == "minimal-risk") = true := by decide
  have e1 : ("minimal-risk" : String) ≠ "" := by decide
  norm_num [resolve_threshold, RISK_THRESHOLDS, List.lookup, b1, b2, b3, e1]

theorem lookup_DX : RECOMMENDATIONS.lookup "DX" = none := by
  have b1 : (("DX" : String) == "D1") = false := by decide
  have b2 : (("DX" : String) == "D2") = false := by decide
  have b3 : (("DX" : String) == "D3") = false := by decide
  have b4 : (("DX" : String) == "D4") = false := by decide
  have b5 : (("DX" : String) == "D5") = false := by decide
  have b6 : (("DX" : String) == "D6") = false := by decide
  simp [RECOMMENDATIONS, List.lookup, b1, b2, b3, b4, b5, b6]

theorem recommendation_for_DX (sev : String) : recommendation_for "DX" sev = "" := by
  unfold recommendation_for
  rw [lookup_DX]
  simp [List.lookup]

theorem analyze_gaps_DX : analyze_gaps [mkDim "DX" (some 1)] 3 none = [gDX] := by
  norm_num [analyze_gaps_eq, resolve_threshold, gap_of, severity_of, mkDim, gDX,
    assign_ranks, List.filterMap_cons, List.mergeSort_singleton, recommendation_for_DX]

theorem analyze_gaps_DX_min :
    analyze_gaps [mkDim "DX" (some 1)] 3 (some "minimal-risk") = [gDXmin] := by
  norm_num [analyze_gaps_eq, resolve_minimal, gap_of, severity_of, mkDim, gDXmin,
    assign_ranks, List.filterMap_cons, List.mergeSort_singleton, recommendation_for_DX]

/-- Claim C1: `calculate_dim_score` sets `num_na` to the number of criteria
with `is_na = true`, `num_rated` to the number of criteria with
`is_na = false` and a present score, and `dim_score` to the mean of the
rated scores rounded to 2 decimals, or `none` when no criterion is rated;
on the spec scenario `[1, N/A, 2, N/A, 3]` it yields `dim_score = 2.0`,
`num_rated = 3`, `num_na = 2`. -/
theorem calculate_dim_score_spec :
    (∀ d : DimensionResult,
      (calculate_dim_score d).num_na
          = d.criteria_scores.countP (fun cs => cs.is_na) ∧
      (calculate_dim_score d).num_rated
          = d.criteria_scores.countP (fun cs => !cs.is_na && cs.score.isSome) ∧
      (calculate_dim_score d).dim_score
          = (if d.criteria_scores.countP (fun cs => !cs.is_na && cs.score.isSome) = 0
             then none
             else some (round2
               (((d.criteria_scores.filter
                     (fun cs => !cs.is_na && cs.score.isSome)).map
                   (fun cs => ((cs.score.getD 0 : Int) : ℚ))).sum
                 / (d.criteria_scores.countP
                     (fun cs => !cs.is_na && cs.score.isSome) : ℚ))))) ∧
    (calculate_dim_score exD2).dim_score = some 2 ∧
    (calculate_dim_score exD2).num_rated = 3 ∧
    (calculate_dim_score exD2).num_na = 2 := by
  have isRated_eq : isRated = fun cs => !cs.is_na && cs.score.isSome := rfl
  refine ⟨fun d => ⟨?_, ?_, ?_⟩, ?_, ?_, ?_⟩
  · simp [calculate_dim_score, List.countP_eq_length_filter]
  · simp [calculate_dim_score, isRated_eq, List.countP_eq_length_filter]
  · simp [calculate_dim_score, isRated_eq, List.countP_eq_length_filter,
      List.isEmpty_iff_length_eq_zero]
  · norm_num [calculate_dim_score, isRated, exD2, round2, roundHalfEven, Int.fract]
  · norm_num [calculate_dim_score, isRated, exD2]
  · norm_num [calculate_dim_score, exD2]

/-- Claim C10: `calculate_dim_score` writes only the three derived fields;
`dimension_id`, `dimension_name` and the entire `criteria_scores` list are
unchanged (the source mutates and returns the same object, modelled here
as returning the updated record). -/
theorem calculate_dim_score_frame (d : DimensionResult) :
    (calculate_dim_score d).dimension_id = d.dimension_id ∧
    (calculate_dim_score d).dimension_name = d.dimension_name ∧
    (calculate_dim_score d).criteria_scores = d.criteria_scores :=
  ⟨rfl, rfl, rfl⟩

/-- Claim C7: `get_maturity_label` is total and follows the descending
first-match ladder, with every score below 1.5 (negative scores included)
mapping to "Initial"; a score of 3.0 maps to "Defined". -/
theorem get_maturity_label_spec :
    (∀ s : ℚ, get_maturity_label s =
      (if (4.5 : ℚ) ≤ s then "Optimizing"
       else if (3.5 : ℚ) ≤ s then "Measured"
       else if (2.5 : ℚ) ≤ s then "Defined"
       else if (1.5 : ℚ) ≤ s then "Managed"
       else "Initial")) ∧
    get_maturity_label 3 = "Defined" := by
  constructor
  · intro s
    by_cases h1 : (4.5 : ℚ) ≤ s
    · simp [get_maturity_label, MATURITY_LEVELS, List.find?, h1]
    · by_cases h2 : (3.5 : ℚ) ≤ s
      · simp [get_maturity_label, MATURITY_LEVELS, List.find?, h1, h2]
      · by_cases h3 : (2.5 : ℚ) ≤ s
        · simp [get_maturity_label, MATURITY_LEVELS, List.find?, h1, h2, h3]
        · by_cases h4 : (1.5 : ℚ) ≤ s
          · simp [get_maturity_label, MATURITY_LEVELS, List.find?, h1, h2, h3, h4]
          · by_cases h5 : (0 : ℚ) ≤ s <;>
              simp [get_maturity_label, MATURITY_LEVELS, List.find?, h1, h2, h3, h4, h5]
  · norm_num [get_maturity_label, MATURITY_LEVELS, List.find?]

/-- Claim C4: `calculate_overall_score` restricts to dimensions with a
score and returns 0 when none has one; without weights it returns the mean
over the scored dimensions (dividing by their number, not by 6) rounded to
2 decimals; with weights it defaults absent ids to 1/6, returns 0 when the
total weight is 0, and otherwise the rounded weighted mean — total in
every case. -/
theorem calculate_overall_score_spec :
    (∀ dims : List DimensionResult,
      calculate_overall_score dims none
        = (if (dims.filter (fun d => d.dim_score.isSome)).length = 0 then 0
           else round2
             (((dims.filter (fun d => d.dim_score.isSome)).map
                 (fun d => d.dim_score.getD 0)).sum
               / ((dims.filter (fun d => d.dim_score.isSome)).length : ℚ)))) ∧
    (∀ (dims : List DimensionResult) (w : List (String × ℚ)),
      calculate_overall_score dims (some w)
        = (if (dims.filter (fun d => d.dim_score.isSome)).length = 0 then 0
           else if ((dims.filter (fun d => d.dim_score.isSome)).map
               (fun d => match w.lookup d.dimension_id with
                         | some x => x
                         | none => (1/6 : ℚ))).sum = 0 then 0
           else round2
             (((dims.filter (fun d => d.dim_score.isSome)).map
                 (fun d => (match w.lookup d.dimension_id with
                            | some x => x
                            | none => (1/6 : ℚ)) * d.dim_score.getD 0)).sum
               / ((dims.filter (fun d => d.dim_score.isSome)).map
                   (fun d => match w.lookup d.dimension_id with
                             | some x => x
                             | none => (1/6 : ℚ))).sum))) ∧
    calculate_overall_score [mkDim "D1" (some 1), mkDim "D2" (some 2)] none = 3/2 ∧
    calculate_overall_score [mkDim "D1" (some 1)] (some [("D1", 0)]) = 0 ∧
    calculate_overall_score [] none = 0 := by
  have hw : ∀ (w : List (String × ℚ)) (id : String),
      weightOf w id = (match w.lookup id with
                       | some x => x
                       | none => (1/6 : ℚ)) := by
    intro w id
    unfold weightOf
    cases w.lookup id <;> rfl
  refine ⟨?_, ?_, ?_, ?_, ?_⟩
  · intro dims
    simp [calculate_overall_score, List.isEmpty_iff_length_eq_zero]
  · intro dims w
    simp only [calculate_overall_score, List.isEmpty_iff_length_eq_zero, hw]
  · norm_num [calculate_overall_score, mkDim, round2, roundHalfEven, Int.fract]
  · norm_num [calculate_overall_score, weightOf, mkDim, List.lookup]
  · rfl

/-- Claim C5: the threshold used by `analyze_gaps` is the table value for
the three recognized risk categories, and the supplied default threshold,
unchanged and without error, for `none` and for any unrecognized category. -/
theorem resolve_threshold_spec :
    (∀ t : ℚ, resolve_threshold t (some "high-risk") = 3 ∧
      resolve_threshold t (some "limited-risk") = 5/2 ∧
      resolve_threshold t (some "minimal-risk") = 2) ∧
    (∀ t : ℚ, resolve_threshold t none = t) ∧
    (∀ (t : ℚ) (rc : String), RISK_THRESHOLDS.lookup rc = none →
      resolve_threshold t (some rc) = t) ∧
    (∀ (dims : List DimensionResult) (t : ℚ) (rc : Option String),
      analyze_gaps dims t rc = analyze_gaps dims (resolve_threshold t rc) none) := by
  refine ⟨?_, fun t => rfl, ?_, fun dims t rc => rfl⟩
  · intro t
    have b1 : (("high-risk" : String) == "high-risk") = true := by decide
    have b2 : (("limited-risk" : String) == "high-risk") = false := by decide
    have b3 : (("limited-risk" : String) == "limited-risk") = true := by decide
    have b4 : (("minimal-risk" : String) == "high-risk") = false := by decide
    have b5 : (("minimal-risk" : String) == "limited-risk") = false := by decide
    have b6 : (("minimal-risk" : String) == "minimal-risk") = true := by decide
    have e1 : ("high-risk" : String) ≠ "" := by decide
    have e2 : ("limited-risk" : String) ≠ "" := by decide
    have e3 : ("minimal-risk" : String) ≠ "" := by decide
    refine ⟨?_, ?_, ?_⟩ <;>
      norm_num [resolve_threshold, RISK_THRESHOLDS, List.lookup,
        b1, b2, b3, b4, b5, b6, e1, e2, e3]
  · intro t rc h
    unfold resolve_threshold
    by_cases he : rc = ""
    · simp [he]
    · simp [he, h]

/-- Witness for `resolve_threshold_spec`: the unrecognized category
"future-risk" is not in the table and falls back to the default. -/
theorem resolve_threshold_spec_witness :
    RISK_THRESHOLDS.lookup "future-risk" = none ∧
    resolve_threshold 7 (some "future-risk") = 7 := by
  have b1 : (("future-risk" : String) == "high-risk") = false := by decide
  have b2 : (("future-risk" : String) == "limited-risk") = false := by decide
  have b3 : (("future-risk" : String) == "minimal-risk") = false := by decide
  constructor
  · simp [RISK_THRESHOLDS, List.lookup, b1, b2, b3]
  · exact resolve_threshold_spec.2.2.1 7 "future-risk"
      (by simp [RISK_THRESHOLDS, List.lookup, b1, b2, b3])

/-- Claim C2: `analyze_gaps` produces exactly one gap per dimension whose
score is present and strictly below the threshold and none otherwise; every
produced gap has a strictly positive gap value `t - dim_score` and the
severity ladder "critical" (gap ≥ 2), "significant" (gap ≥ 1), "moderate";
a dimension scoring 1.0 under the high-risk threshold 3.0 yields severity
"critical". -/
theorem analyze_gaps_gap_spec :
    (∀ (dims : List DimensionResult) (t : ℚ),
      (analyze_gaps dims t none).length
          = dims.countP (fun d => d.dim_score.any (fun s => decide (s < t))) ∧
      (∀ d ∈ dims, ∀ s : ℚ, d.dim_score = some s → s < t →
        ∃ g ∈ analyze_gaps dims t none,
          g.dimension_id = d.dimension_id ∧ g.dim_score = s) ∧
      (∀ g ∈ analyze_gaps dims t none,
        0 < t - g.dim_score ∧
        g.gap_severity
            = (if 2 ≤ t - g.dim_score then "critical"
               else if 1 ≤ t - g.dim_score then "significant"
               else "moderate"))) ∧
    (analyze_gaps [mkDim "D5" (some 1)] 3 (some "high-risk")).map
        (fun g => (g.dim_score, g.gap_severity)) = [((1 : ℚ), "critical")] := by
  constructor
  · intro dims t
    refine ⟨by simpa using length_analyze_gaps dims t none, ?_, ?_⟩
    · intro d hd s hs hlt
      exact mem_analyze_gaps_of_mem hd hs hlt
    · intro g hg
      obtain ⟨d, hd, h1, h2, h3, h4, h5, h6⟩ := mem_analyze_gaps hg
      have hlt : g.dim_score < t := h2
      refine ⟨by linarith, ?_⟩
      have hsev : g.gap_severity = severity_of (t - g.dim_score) := h5
      rw [hsev]
      rfl
  · rw [show analyze_gaps [mkDim "D5" (some 1)] 3 (some "high-risk")
        = analyze_gaps [mkDim "D5" (some 1)] (resolve_threshold 3 (some "high-risk")) none
      from rfl, resolve_high]
    norm_num [analyze_gaps_eq, resolve_threshold, gap_of, severity_of, mkDim,
      assign_ranks, List.filterMap_cons, List.mergeSort_singleton]

/-- Witness for `analyze_gaps_gap_spec`: the concrete gap of the dimension
"DX" scoring 1 under threshold 3 has positive gap value 2 and severity
"critical". -/
theorem analyze_gaps_gap_spec_witness :
    0 < (3 : ℚ) - gDX.dim_score ∧
    gDX.gap_severity
        = (if 2 ≤ (3 : ℚ) - gDX.dim_score then "critical"
           else if 1 ≤ (3 : ℚ) - gDX.dim_score then "significant"
           else "moderate") :=
  (analyze_gaps_gap_spec.1 [mkDim "DX" (some 1)] 3).2.2 gDX
    (by rw [analyze_gaps_DX]; exact List.mem_singleton.mpr rfl)

/-- Claim C3: the gap list returned by `analyze_gaps` is sorted by
`dim_score` ascending with a stable tie order, and `priority_rank` is the
dense sequence 1..N along it; the spec tie scenario `[D3, D1]` at score 2.0
keeps its input order with ranks `[1, 2]`. -/
theorem analyze_gaps_ranking_spec :
    (∀ (dims : List DimensionResult) (t : ℚ) (rc : Option String),
      (analyze_gaps dims t rc).map (fun g => g.priority_rank)
          = List.range' 1 (analyze_gaps dims t rc).length ∧
      (analyze_gaps dims t rc).Pairwise (fun a b => a.dim_score ≤ b.dim_score) ∧
      (analyze_gaps dims t rc).map (fun g => (g.dimension_id, g.dim_score))
          = ((dims.filterMap (gap_of (resolve_threshold t rc))).map
              (fun g => (g.dimension_id, g.dim_score))).mergeSort
              (fun a b => decide (a.2 ≤ b.2))) ∧
    (analyze_gaps [mkDim "D3" (some 2), mkDim "D1" (some 2)] 3 none).map
        (fun g => (g.dimension_id, g.priority_rank)) = [("D3", 1), ("D1", 2)] := by
  have htrans : ∀ a b c : GapItem,
      decide (a.dim_score ≤ b.dim_score) = true →
      decide (b.dim_score ≤ c.dim_score) = true →
      decide (a.dim_score ≤ c.dim_score) = true := by
    intro a b c hab hbc
    rw [decide_eq_true_eq] at *
    exact le_trans hab hbc
  have htotal : ∀ a b : GapItem,
      (decide (a.dim_score ≤ b.dim_score) || decide (b.dim_score ≤ a.dim_score))
        = true := by
    intro a b
    rcases le_total a.dim_score b.dim_score with h | h <;> simp [h]
  constructor
  · intro dims t rc
    rw [analyze_gaps_eq]
    refine ⟨?_, ?_, ?_⟩
    · rw [map_rank_assign_ranks, length_assign_ranks]
    · apply pairwise_assign_ranks
      have hp := List.sorted_mergeSort htrans htotal
        (dims.filterMap (gap_of (resolve_threshold t rc)))
      exact hp.imp (fun h => by simpa using h)
    · rw [map_idscore_assign_ranks]
      exact List.map_mergeSort (fun a _ b _ => rfl)
  · have hfm : List.filterMap (gap_of (resolve_threshold 3 none))
        [mkDim "D3" (some 2), mkDim "D1" (some 2)] = [gTie "D3", gTie "D1"] := by
      norm_num [resolve_threshold, gap_of, severity_of, mkDim, gTie,
        List.filterMap_cons]
    have hms : ([gTie "D3", gTie "D1"]).mergeSort
        (fun a b => decide (a.dim_score ≤ b.dim_score)) = [gTie "D3", gTie "D1"] := by
      apply List.mergeSort_of_sorted
      refine List.pairwise_cons.mpr ⟨?_, List.pairwise_singleton _ _⟩
      intro b hb
      rw [List.mem_singleton] at hb
      subst hb
      simp [gTie]
    rw [analyze_gaps_eq, hfm, hms]
    simp [assign_ranks, gTie]

/-- Claim C6: every produced gap's recommendation is the catalog entry at
`(dimension_id, severity)`, falling back to the dimension's "moderate"
entry when the severity key is absent, and to the empty string when the
dimension is absent from the catalog; the lookup is total. -/
theorem analyze_gaps_recommendation_spec :
    ∀ (dims : List DimensionResult) (t : ℚ) (rc : Option String),
      ∀ g ∈ analyze_gaps dims t rc,
        g.recommendation
          = (match RECOMMENDATIONS.lookup g.dimension_id with
             | none => ""
             | some dim_recs =>
                 (dim_recs.lookup g.gap_severity).getD
                   ((dim_recs.lookup "moderate").getD "")) := by
  intro dims t rc g hg
  obtain ⟨d, hd, h1, h2, h3, h4, h5, h6⟩ := mem_analyze_gaps hg
  rw [h6]
  unfold recommendation_for
  cases hr : RECOMMENDATIONS.lookup g.dimension_id
  · simp [List.lookup]
  · simp

/-- Witness for `analyze_gaps_recommendation_spec`: the unknown dimension
"DX" is absent from the catalog and its gap carries the empty
recommendation. -/
theorem analyze_gaps_recommendation_spec_witness :
    gDX.recommendation
      = (match RECOMMENDATIONS.lookup gDX.dimension_id with
         | none => ""
         | some dim_recs =>
             (dim_recs.lookup gDX.gap_severity).getD
               ((dim_recs.lookup "moderate").getD "")) :=
  analyze_gaps_recommendation_spec [mkDim "DX" (some 1)] 3 none gDX
    (by rw [analyze_gaps_DX]; exact List.mem_singleton.mpr rfl)

theorem filter_isRated_set_score (l : List CriterionScore) (i : Nat)
    (v : Option Int) (h : (l[i]?.all (fun cs => cs.is_na)) = true) :
    (set_score l i v).filter isRated = l.filter isRated := by
  induction l generalizing i with
  | nil => rfl
  | cons a as ih =>
      cases i with
      | zero =>
          have ha : a.is_na = true := by simpa using h
          simp [set_score, List.set, List.filter, isRated, ha]
      | succ n =>
          have h' : (as[n]?.all (fun cs => cs.is_na)) = true := by simpa using h
          have hstep : set_score (a :: as) (n + 1) v = a :: set_score as n v := by
            unfold set_score
            rw [List.getElem?_cons_succ]
            cases hn : as[n]? <;> simp [List.set]
          rw [hstep]
          simp only [List.filter]
          rw [ih n h']

/-- Claim C8: noninterference of N/A criteria — replacing the score of any
criterion marked `is_na = true` by an arbitrary value (or removing it)
leaves `dim_score` unchanged. -/
theorem na_noninterference (d : DimensionResult) (i : Nat) (v : Option Int)
    (h : (d.criteria_scores[i]?.all (fun cs => cs.is_na)) = true) :
    (calculate_dim_score
        { d with criteria_scores := set_score d.criteria_scores i v }).dim_score
      = (calculate_dim_score d).dim_score := by
  unfold calculate_dim_score
  simp only [filter_isRated_set_score d.criteria_scores i v h]

/-- Witness for `na_noninterference`: changing the N/A criterion at index 1
of the spec scenario to score 5 leaves `dim_score` at 2.0. -/
theorem na_noninterference_witness :
    (calculate_dim_score
        { exD2 with criteria_scores := set_score exD2.criteria_scores 1 (some 5) }).dim_score
      = (calculate_dim_score exD2).dim_score :=
  na_noninterference exD2 1 (some 5) (by decide)

/-- Claim C9: for fixed dimension scores, every gap found under the
minimal-risk threshold 2.0 also appears under the high-risk threshold 3.0,
and a gap found under high-risk appears under minimal-risk exactly when its
score is strictly below 2.0. -/
theorem risk_override_monotonic :
    ∀ (dims : List DimensionResult) (t : ℚ),
      (∀ g ∈ analyze_gaps dims t (some "minimal-risk"),
        ∃ g2 ∈ analyze_gaps dims t (some "high-risk"),
          g2.dimension_id = g.dimension_id ∧ g2.dim_score = g.dim_score) ∧
      (∀ g2 ∈ analyze_gaps dims t (some "high-risk"),
        ((∃ g ∈ analyze_gaps dims t (some "minimal-risk"),
            g.dimension_id = g2.dimension_id ∧ g.dim_score = g2.dim_score)
          ↔ g2.dim_score < 2)) := by
  intro dims t
  constructor
  · intro g hg
    obtain ⟨d, hd, h1, h2, h3, _, _, _⟩ := mem_analyze_gaps hg
    rw [resolve_minimal] at h2
    have hlt3 : g.dim_score < resolve_threshold t (some "high-risk") := by
      rw [resolve_high]
      linarith
    obtain ⟨g2, hg2, hid, hsc⟩ := mem_analyze_gaps_of_mem hd h1 hlt3
    exact ⟨g2, hg2, hid.trans h3.symm, hsc⟩
  · intro g2 hg2
    obtain ⟨d, hd, h1, h2, h3, _, _, _⟩ := mem_analyze_gaps hg2
    constructor
    · rintro ⟨g, hg, hid, hsc⟩
      obtain ⟨d2, hd2, k1, k2, k3, _, _, _⟩ := mem_analyze_gaps hg
      rw [resolve_minimal] at k2
      rw [← hsc]
      exact k2
    · intro hlt
      have hlt2 : g2.dim_score < resolve_threshold t (some "minimal-risk") := by
        rw [resolve_minimal]
        exact hlt
      obtain ⟨g, hg, hid, hsc⟩ := mem_analyze_gaps_of_mem hd h1 hlt2
      exact ⟨g, hg, hid.trans h3.symm, hsc⟩

/-- Witness for `risk_override_monotonic`: the "DX" gap found under
minimal-risk also appears under high-risk. -/
theorem risk_override_monotonic_witness :
    ∃ g2 ∈ analyze_gaps [mkDim "DX" (some 1)] 3 (some "high-risk"),
      g2.dimension_id = gDXmin.dimension_id ∧ g2.dim_score = gDXmin.dim_score :=
  (risk_override_monotonic [mkDim "DX" (some 1)] 3).1 gDXmin
    (by rw [analyze_gaps_DX_min]; exact List.mem_singleton.mpr rfl)

end KIGov
